import Mathlib

/-
  Verification development for the mattermost-dl archival engine.

  The Python sources are shallowly embedded into Lean:
  machine integers and millisecond timestamps become Int, optional values
  become Option, functions that can raise (assertion errors, ValueError,
  IndexError) return Except Unit, and the paginated Mattermost posts
  endpoint is modelled as a pure function over the channel's post list.
  Definitions keep the names and the control flow of the source functions
  (store.py, recovery.py, bo.py, driver.py, saver.py of the mattermost_dl
  package).
-/

namespace MattermostDl

/-- Opaque entity identifier (bo.py, Id = NewType('Id', str)). -/
abbrev Id := String

/-- Unix timestamp in milliseconds (bo.py, class Time). Total order of Int. -/
abbrev Time := Int

/-- Python truthiness of an optional string: None and the empty string are falsy. -/
def idTruthy : Option Id → Bool
  | some s => s ≠ ""
  | none => false

/-- PostOrdering enum of store.py: how posts are organized in the storage. -/
inductive PostOrdering where
  | Unsorted
  | Ascending
  | Descending
  | AscendingContinuous
  | DescendingContinuous
deriving DecidableEq, Repr

/-- OrderDirection enum of config.py. -/
inductive OrderDirection where
  | Asc
  | Desc
deriving DecidableEq, Repr

/-- PostStorage dataclass of store.py with its field defaults.
If count == 0, the remaining fields need not hold meaningful values. -/
structure PostStorage where
  count : Int := 0
  organization : PostOrdering := PostOrdering.Unsorted
  byteSize : Int := 0
  postIdBeforeFirst : Option Id := none
  beginTime : Time := 0
  firstPostId : Id := ""
  endTime : Time := 0
  lastPostId : Id := ""
  postIdAfterLast : Option Id := none
deriving DecidableEq, Repr

/-- PostStorage.update of store.py: updates an old post storage with freshly
downloaded content. The two asserts (matching organization; adjacency of the
old storage's lastPostId and the new storage's postIdBeforeFirst, checked only
when the new storage is nonempty) are modelled as Except.error.
In Python, lastPostId == postIdBeforeFirst compares a str with an Optional,
which holds exactly when the optional carries the same string. -/
def PostStorage.update (self other : PostStorage) : Except Unit PostStorage :=
  if other.organization = self.organization then
    if 0 < other.count then
      if other.postIdBeforeFirst = some self.lastPostId then
        Except.ok { self with
          count := self.count + other.count
          byteSize := other.byteSize
          lastPostId := other.lastPostId
          endTime := other.endTime
          postIdAfterLast := other.postIdAfterLast }
      else Except.error ()
    else Except.ok self
  else Except.error ()

/-- ChannelHeader of store.py, scoped to its storage field: the channel, team,
users and emojis members do not interact with the storage-presence logic that
is under verification. -/
structure ChannelHeader where
  storage : Option PostStorage := none
deriving DecidableEq, Repr

/-- Modelled from the spec: the file header.schema.json consulted by
ChannelHeader.fromStore is not present in the provided sources.  Per the spec,
storage's count field is the number of posts held in the data file, so the
schema admits only non-negative counts. -/
def headerStorageSchemaOk (s : PostStorage) : Prop := 0 ≤ s.count

instance (s : PostStorage) : Decidable (headerStorageSchemaOk s) := by
  unfold headerStorageSchemaOk; infer_instance

/-- ChannelHeader.fromStore of store.py, restricted to the storage member:
a storage object present in the validated JSON is kept only when its count
is nonzero (lines 172-175). -/
def ChannelHeader.fromStore (storageField : Option PostStorage) : ChannelHeader :=
  { storage :=
      match storageField with
      | some s => if s.count ≠ 0 then some s else none
      | none => none }

/-- ChannelHeader.toStore of store.py, restricted to the storage member:
the serialized header carries a storage object only when one is present and
its count is positive (lines 201-202). -/
def ChannelHeader.toStore (h : ChannelHeader) : Option PostStorage :=
  match h.storage with
  | some s => if 0 < s.count then some s else none
  | none => none

/-- RecoveryAction subclasses of recovery_actions.py, as one closed enum
(the Python classes are stateless and compare by type). -/
inductive RecoveryAction where
  | RBackup
  | RDelete
  | RReuse
  | RSkipDownload
deriving DecidableEq, Repr

/-- RecoveryArbiter.onUnloadableHeader of recovery.py: always chooses backup. -/
def RecoveryArbiter.onUnloadableHeader : RecoveryAction := RecoveryAction.RBackup

/-- RecoveryArbiter.onMissizedDataFile of recovery.py: the header's relevant
content is its storage; size is the actual data file size (none if the file
could not be opened).  The three branches differ only in the logged warning;
every one of them returns RBackup. -/
def RecoveryArbiter.onMissizedDataFile (storage : Option PostStorage) (size : Option Int) :
    RecoveryAction :=
  let headerSize : Int :=
    match storage with
    | some s => s.byteSize
    | none => 0
  match size with
  | none => RecoveryAction.RBackup
  | some n =>
    if n < headerSize then RecoveryAction.RBackup
    else if headerSize < n then RecoveryAction.RBackup
    else RecoveryAction.RBackup

/-- Outcome of Saver.loadPreviousChannelArchive: either the archive is usable
(possibly after truncating the data file to the recorded byteSize), or a
recovery strategy for the previous content is returned. -/
inductive LoadPrevOutcome where
  | loaded
  | loadedTruncated (toSize : Int)
  | strategy (a : RecoveryAction)
deriving DecidableEq, Repr

/-- Saver.loadPreviousChannelArchive of saver.py (lines 788-832), at the level
of its decision logic.  headerInfo is none when the header file is missing or
unloadable (ChannelFileInfo.load returned None) and otherwise carries the
loaded header's storage; dataFileSize is the data file's size, none when the
file does not exist.  The arbiter argument abstracts
RecoveryArbiter.onMissizedDataFile so that non-default arbiters can be
examined; asserts are modelled as Except.error. -/
def loadPreviousChannelArchive
    (arbiter : Option PostStorage → Option Int → RecoveryAction)
    (headerInfo : Option (Option PostStorage)) (dataFileSize : Option Int) :
    Except Unit LoadPrevOutcome :=
  match headerInfo with
  | none => Except.ok (LoadPrevOutcome.strategy RecoveryArbiter.onUnloadableHeader)
  | some storage =>
    match storage with
    | some st =>
      match dataFileSize with
      | none =>
        if 0 < st.byteSize then
          let opts := arbiter storage none
          if opts = RecoveryAction.RReuse then Except.error ()
          else Except.ok (LoadPrevOutcome.strategy opts)
        else Except.ok LoadPrevOutcome.loaded
      | some n =>
        if st.byteSize ≠ n then
          let opts := arbiter storage (some n)
          if opts = RecoveryAction.RReuse then
            if st.byteSize < n then Except.ok (LoadPrevOutcome.loadedTruncated st.byteSize)
            else Except.error ()
          else Except.ok (LoadPrevOutcome.strategy opts)
        else Except.ok LoadPrevOutcome.loaded
    | none =>
      match dataFileSize with
      | some n =>
        if 0 < n then
          let opts := arbiter none (some n)
          if opts = RecoveryAction.RBackup ∨ opts = RecoveryAction.RDelete ∨
              opts = RecoveryAction.RSkipDownload then
            Except.ok (LoadPrevOutcome.strategy opts)
          else Except.ok LoadPrevOutcome.loaded
        else Except.ok LoadPrevOutcome.loaded
      | none => Except.ok LoadPrevOutcome.loaded

/-- ChannelType enum of bo.py with its wire tags O, P, G, D. -/
inductive ChannelType where
  | Open
  | Private
  | Group
  | Direct
deriving DecidableEq, Repr

/-- ChannelType.fromMattermost of bo.py: tries each member's wire tag in
declaration order; an unknown tag degrades to Open and logs a warning.
The Bool component records whether the warning was emitted. -/
def ChannelType.fromMattermost (info : String) : ChannelType × Bool :=
  if info = "O" then (ChannelType.Open, false)
  else if info = "P" then (ChannelType.Private, false)
  else if info = "G" then (ChannelType.Group, false)
  else if info = "D" then (ChannelType.Direct, false)
  else (ChannelType.Open, true)

/-- TeamType enum of bo.py with its wire tags O, I. -/
inductive TeamType where
  | Open
  | InviteOnly
deriving DecidableEq, Repr

/-- TeamType.fromMattermost of bo.py: unknown tags degrade to Open with a
warning (Bool component). -/
def TeamType.fromMattermost (info : String) : TeamType × Bool :=
  if info = "O" then (TeamType.Open, false)
  else if info = "I" then (TeamType.InviteOnly, false)
  else (TeamType.Open, true)

/-- The Python enum constructor call TeamType(info), as used by
Team.fromMattermost (bo.py line 745): an unknown tag raises ValueError,
modelled as Except.error. -/
def TeamType.enumOfValue (info : String) : Except Unit TeamType :=
  if info = "O" then Except.ok TeamType.Open
  else if info = "I" then Except.ok TeamType.InviteOnly
  else Except.error ()

/-- Fields of a server-side team JSON object that Team.fromMattermost
extracts.  last_team_icon_update is read with extractOr fallback 0, so an
absent key is modelled as the value 0; the remaining keys are required by
extract.  Unrecognized keys go to the misc bag, which is not modelled. -/
structure TeamJson where
  id : Id
  display_name : String
  name : String
  type : String
  create_at : Int
  update_at : Int
  delete_at : Int
  description : String
  last_team_icon_update : Int := 0
  invite_id : String
deriving DecidableEq, Repr

/-- Team entity of bo.py (typed fields read by Team.fromMattermost; the
channels map and misc bag are not modelled). -/
structure Team where
  id : Id
  name : String
  internalName : String
  type : TeamType
  createTime : Time
  updateTime : Option Time := none
  deleteTime : Option Time := none
  description : Option String := none
  updateAvatarTime : Option Time := none
  inviteId : Option Id := none
deriving DecidableEq, Repr

/-- Team.fromMattermost of bo.py: note that the type tag is decoded with the
plain enum constructor TeamType(...), not with TeamType.fromMattermost, so an
unknown tag propagates a ValueError instead of degrading to Open. -/
def Team.fromMattermost (info : TeamJson) : Except Unit Team := do
  let ty ← TeamType.enumOfValue info.type
  Except.ok {
    id := info.id
    name := info.display_name
    internalName := info.name
    type := ty
    createTime := info.create_at
    updateTime := if info.update_at ≠ info.create_at then some info.update_at else none
    deleteTime := if info.delete_at ≠ 0 then some info.delete_at else none
    description := if info.description ≠ "" then some info.description else none
    updateAvatarTime :=
      if info.last_team_icon_update ≠ 0 ∧ info.last_team_icon_update ≠ info.create_at then
        some info.last_team_icon_update
      else none
    inviteId := if info.invite_id ≠ "" then some info.invite_id else none }

/-- Fields of a server-side channel JSON object that Channel.fromMattermost
extracts.  total_msg_count_root is read with extractOr fallback None; the
remaining keys are required. -/
structure ChannelJson where
  id : Id
  display_name : String
  name : String
  create_at : Int
  update_at : Int
  delete_at : Int
  type : String
  header : String
  purpose : String
  last_post_at : Int
  total_msg_count : Int
  total_msg_count_root : Option Int := none
  creator_id : String
deriving DecidableEq, Repr

/-- Channel entity of bo.py (typed fields read by Channel.fromMattermost;
members list and misc bag are not modelled). -/
structure Channel where
  id : Id
  internalName : String
  createTime : Time
  type : ChannelType
  messageCount : Int
  name : Option String := none
  creatorUserId : Option Id := none
  updateTime : Option Time := none
  deleteTime : Option Time := none
  header : Option String := none
  purpose : Option String := none
  rootMessageCount : Option Int := none
  lastMessageTime : Option Time := none
deriving DecidableEq, Repr

/-- Channel.fromMattermost of bo.py: the type tag is decoded through
ChannelType.fromMattermost, so unknown tags degrade to Open; the Bool
component carries that decoder's warning flag.  A channel with no posts has
last_post_at == 0, which maps to lastMessageTime = none. -/
def Channel.fromMattermost (info : ChannelJson) : Channel × Bool :=
  let (ty, warned) := ChannelType.fromMattermost info.type
  ({ id := info.id
     name := some info.display_name
     internalName := info.name
     createTime := info.create_at
     updateTime := if info.update_at ≠ info.create_at then some info.update_at else none
     deleteTime := if info.delete_at ≠ 0 then some info.delete_at else none
     type := ty
     header := if info.header ≠ "" then some info.header else none
     purpose := if info.purpose ≠ "" then some info.purpose else none
     lastMessageTime := if info.last_post_at ≠ 0 then some info.last_post_at else none
     messageCount := info.total_msg_count
     rootMessageCount := info.total_msg_count_root
     creatorUserId := if info.creator_id ≠ "" then some info.creator_id else none },
   warned)

/-- Fields of a server-side post JSON object that drive the identity and
timestamp logic of Post.fromMattermost.  The props, metadata, parent and
reaction handling of bo.py operates on other fields and is not modelled. -/
structure PostJson where
  id : Id
  user_id : Id
  create_at : Int
  message : String
  update_at : Int
  edit_at : Int
  delete_at : Int
deriving DecidableEq, Repr

/-- Post entity of bo.py, scoped like PostJson to identity and timestamps. -/
structure Post where
  id : Id
  userId : Id
  createTime : Time
  message : String
  updateTime : Option Time := none
  publicUpdateTime : Option Time := none
  deleteTime : Option Time := none
deriving DecidableEq, Repr

/-- Post.fromMattermost of bo.py (lines 470-481): updateTime is kept only
when update_at differs from create_at; publicUpdateTime (edit_at) is kept
when nonzero and, if updateTime is set, different from it.  Neither is
compared against create_at beyond the update_at equality collapse. -/
def Post.fromMattermost (info : PostJson) : Post :=
  let createTime : Time := info.create_at
  let updateTime : Option Time :=
    if info.update_at ≠ info.create_at then some info.update_at else none
  let publicUpdateTime : Option Time :=
    match updateTime with
    | none => if info.edit_at ≠ 0 then some info.edit_at else none
    | some u => if info.edit_at ≠ 0 ∧ info.edit_at ≠ u then some info.edit_at else none
  { id := info.id
    userId := info.user_id
    createTime := createTime
    message := info.message
    updateTime := updateTime
    publicUpdateTime := publicUpdateTime
    deleteTime := if info.delete_at ≠ 0 then some info.delete_at else none }

/-- ProcessPostResult enum of driver.py. -/
inductive ProcessPostResult where
  | NothingRequested
  | NoMorePosts
  | MaxCountReached
  | ConditionReached
deriving DecidableEq, Repr

/-- One page returned by the paginated posts endpoint (spec section 4.3 and
6): the page's posts newest-first (the order list together with the posts
map), and the ids of the neighbouring posts, empty string meaning none. -/
structure PageResult where
  order : List PostJson
  prev_post_id : String
  next_post_id : String
deriving DecidableEq, Repr

/-- The paginated posts endpoint, modelled over the channel's full post list
given oldest-first.  Without cursors, page p skips the p*perPage newest
posts; with an after cursor the listing is restricted to posts strictly newer
than the cursor post and page p skips the p*perPage oldest of those; a before
cursor restricts to posts strictly older than the cursor post.  Within a page
posts are newest-first; prev_post_id names the next older post and
next_post_id the next newer post, empty when none exists. -/
def fetchPosts (history : List PostJson) (perPage page : Int)
    (after before : Option Id) : PageResult :=
  let hist : List PostJson := match before with
    | some b => history.takeWhile (fun p => p.id ≠ b)
    | none => history
  let pp := perPage.toNat
  let pg := page.toNat
  match after with
  | some a =>
    let sub := ((hist.dropWhile (fun p => p.id ≠ a)).drop 1)
    let chunk := (sub.drop (pg * pp)).take pp
    { order := chunk.reverse
      prev_post_id :=
        if pg * pp = 0 then a
        else match sub.get? (pg * pp - 1) with
          | some p => p.id
          | none => ""
      next_post_id :=
        match sub.get? (pg * pp + chunk.length) with
        | some p => p.id
        | none => "" }
  | none =>
    let nf := hist.reverse
    let chunk := (nf.drop (pg * pp)).take pp
    { order := chunk
      prev_post_id :=
        match nf.get? (pg * pp + chunk.length) with
        | some p => p.id
        | none => ""
      next_post_id :=
        if pg * pp = 0 then ""
        else match nf.get? (pg * pp - 1) with
          | some p => p.id
          | none => "" }

/-- Python list indexing lst[i] including negative indices; none models an
IndexError. -/
def pyIndex (xs : List PostJson) (i : Int) : Option PostJson :=
  if 0 ≤ i then xs.get? i.toNat
  else if -(xs.length : Int) ≤ i then xs.get? (xs.length - (-i).toNat)
  else none

/-- Python slice lst[:j] including negative j. -/
def pySliceTo (j : Int) (xs : List PostJson) : List PostJson :=
  if 0 ≤ j then xs.take j.toNat
  else xs.take (xs.length - min xs.length (-j).toNat)

/-- The neighbour-hint expression of driver.py guarded by an upper bound:
order[i] if i < len(order) else (fallback if fallback != '' else None).
The unguarded lower side can raise IndexError (Except.error). -/
def pyHint (order : List PostJson) (i : Int) (fallback : String) :
    Except Unit (Option Id) :=
  if i < (order.length : Int) then
    match pyIndex order i with
    | some p => Except.ok (some p.id)
    | none => Except.error ()
  else Except.ok (if fallback ≠ "" then some fallback else none)

/-- The neighbour-hint expression of driver.py guarded by a lower bound:
order[i] if i >= 0 else (fallback if fallback != '' else None). -/
def pyHintNonneg (order : List PostJson) (i : Int) (fallback : String) :
    Except Unit (Option Id) :=
  if 0 ≤ i then
    match order.get? i.toNat with
    | some p => Except.ok (some p.id)
    | none => Except.error ()
  else Except.ok (if fallback ≠ "" then some fallback else none)

/-- Keyword arguments of MattermostDriver.processPosts with their defaults. -/
structure FetchArgs where
  beforePost : Option Id := none
  afterPost : Option Id := none
  beforeTime : Option Time := none
  afterTime : Option Time := none
  bufferSize : Int := 60
  maxCount : Int := 0
  offset : Int := 0
  timeDirection : OrderDirection := OrderDirection.Asc
deriving DecidableEq, Repr

/-- Mutable state threaded through the processPosts loop: the persistent
PostHints.processedCount, the log of post ids passed to the processor in
invocation order, the number of onSkippedPost calls, and the number of
server requests issued. -/
structure FetchState where
  processedCount : Int := 0
  processed : List Id := []
  skipped : Nat := 0
  requests : Nat := 0
deriving DecidableEq, Repr

/-- Python truthiness test beforePost and p.id == beforePost (resp.
afterPost): a present, non-empty id that equals the post's id. -/
def idMatches (o : Option Id) (x : Id) : Bool :=
  match o with
  | some b => b ≠ "" && x == b
  | none => false

/-- The ascending inner loop of processPosts (driver.py lines 363-381):
iterates reversed(order[:windowIndex+1]) with windowIndex decreasing,
computing neighbour hints against the full order list, and applies the
termination, max-count and skip predicates in source order. -/
def ascWindowLoop (args : FetchArgs) (order : List PostJson) (prevId nextId : String) :
    List PostJson → Int → FetchState →
    Except Unit (FetchState × Option ProcessPostResult)
  | [], _, st => Except.ok (st, none)
  | p :: rest, wi, st =>
    match pyHint order (wi + 1) prevId, pyHintNonneg order (wi - 1) nextId with
    | Except.error e, _ => Except.error e
    | _, Except.error e => Except.error e
    | Except.ok _, Except.ok _ =>
      let wi2 := wi - 1
      if idMatches args.beforePost p.id ∨
          args.beforeTime.any (fun bt => bt < p.create_at) then
        Except.ok (st, some ProcessPostResult.ConditionReached)
      else if args.maxCount ≠ 0 ∧ st.processedCount = args.maxCount then
        Except.ok (st, some ProcessPostResult.MaxCountReached)
      else if args.afterTime.any (fun atv => p.create_at ≤ atv) then
        ascWindowLoop args order prevId nextId rest wi2 { st with skipped := st.skipped + 1 }
      else
        ascWindowLoop args order prevId nextId rest wi2
          { st with
            processedCount := st.processedCount + 1
            processed := st.processed ++ [p.id] }

/-- The descending inner loop of processPosts (driver.py lines 346-362):
iterates enumerate(order[pageOffset:]) with windowIndex increasing from 0,
computing neighbour hints against the full order list. -/
def descWindowLoop (args : FetchArgs) (order : List PostJson) (prevId nextId : String) :
    List PostJson → Int → FetchState →
    Except Unit (FetchState × Option ProcessPostResult)
  | [], _, st => Except.ok (st, none)
  | p :: rest, wi, st =>
    match pyHint order (wi + 1) prevId, pyHintNonneg order (wi - 1) nextId with
    | Except.error e, _ => Except.error e
    | _, Except.error e => Except.error e
    | Except.ok _, Except.ok _ =>
      if idMatches args.afterPost p.id ∨
          args.afterTime.any (fun atv => p.create_at < atv) then
        Except.ok (st, some ProcessPostResult.ConditionReached)
      else if args.maxCount ≠ 0 ∧ st.processedCount = args.maxCount then
        Except.ok (st, some ProcessPostResult.MaxCountReached)
      else if args.beforeTime.any (fun bt => bt ≤ p.create_at) then
        descWindowLoop args order prevId nextId rest (wi + 1) { st with skipped := st.skipped + 1 }
      else
        descWindowLoop args order prevId nextId rest (wi + 1)
          { st with
            processedCount := st.processedCount + 1
            processed := st.processed ++ [p.id] }

/-- Overall outcome of a processPosts run: the returned result with the run's
observable effects, a raised exception (assertion or index error), or fuel
exhaustion of the interpreter. -/
inductive RunOutcome where
  | finished (result : ProcessPostResult) (requests : Nat) (processed : List Id) (skipped : Nat)
  | crashed
  | outOfFuel
deriving DecidableEq, Repr

/-- The probing loop of the ascending no-anchor setup (driver.py lines
319-327): fetch candidate last pages, moving further into history while the
fetched page still reports an older neighbour. -/
def probeLastPage (history : List PostJson) (bufferSize : Int) :
    Nat → Int → Nat → Option (Int × PageResult × Nat)
  | 0, _, _ => none
  | fuel + 1, page, reqs =>
    let pr := fetchPosts history bufferSize page none none
    if pr.prev_post_id ≠ "" then probeLastPage history bufferSize fuel (page + 1) (reqs + 1)
    else some (page, pr, reqs + 1)

/-- The main page loop of processPosts (driver.py lines 338-415), fuelled.
Arguments after the fuel: current page, pageOffset, and the after and before
cursor parameters (initially the afterPost and beforePost arguments, later
overwritten by the pagination cursors). -/
def processPostsLoop (history : List PostJson) (args : FetchArgs) :
    Nat → Int → Int → Option Id → Option Id → FetchState → RunOutcome
  | 0, _, _, _, _, _ => RunOutcome.outOfFuel
  | fuel + 1, page, pageOffset, afterCur, beforeCur, st0 =>
    let pr := fetchPosts history args.bufferSize page afterCur beforeCur
    let st1 := { st0 with requests := st0.requests + 1 }
    let windowRes :=
      match args.timeDirection with
      | OrderDirection.Desc =>
        descWindowLoop args pr.order pr.prev_post_id pr.next_post_id
          (pr.order.drop pageOffset.toNat) 0 st1
      | OrderDirection.Asc =>
        let wi : Int := (pr.order.length : Int) - pageOffset - 1
        ascWindowLoop args pr.order pr.prev_post_id pr.next_post_id
          ((pySliceTo (wi + 1) pr.order).reverse) wi st1
    match windowRes with
    | Except.error _ => RunOutcome.crashed
    | Except.ok (st, stopReason) =>
      if pr.order.length = 0 then
        if args.timeDirection = OrderDirection.Asc ∧ ¬ idTruthy args.afterPost ∧ page ≠ 0 then
          processPostsLoop history args fuel (page - 1) pageOffset afterCur beforeCur st
        else RunOutcome.finished ProcessPostResult.NoMorePosts st.requests st.processed st.skipped
      else
        match stopReason with
        | some r => RunOutcome.finished r st.requests st.processed st.skipped
        | none =>
          if args.maxCount ≠ 0 ∧ args.maxCount ≤ st.processedCount then
            RunOutcome.finished ProcessPostResult.MaxCountReached st.requests st.processed st.skipped
          else
            match args.timeDirection with
            | OrderDirection.Desc =>
              if pr.prev_post_id = "" then
                RunOutcome.finished ProcessPostResult.NoMorePosts st.requests st.processed st.skipped
              else
                processPostsLoop history args fuel 0 0 afterCur
                  (some ((pr.order.getLast?.map (fun p => p.id)).getD "")) st
            | OrderDirection.Asc =>
              if pr.next_post_id = "" then
                RunOutcome.finished ProcessPostResult.NoMorePosts st.requests st.processed st.skipped
              else
                processPostsLoop history args fuel 0 0
                  (some ((pr.order.head?.map (fun p => p.id)).getD "")) beforeCur st

/-- MattermostDriver.processPosts of driver.py, modelled over a server whose
channel holds the given posts oldest-first and reports messageCount as its
approximate total message count.  Note the early NothingRequested return
fires when afterTime < beforeTime (both given); the commented-out
offset >= messageCount early return of the source is likewise absent here. -/
def processPosts (history : List PostJson) (messageCount : Int) (args : FetchArgs)
    (fuel : Nat) : RunOutcome :=
  let afterCur := if idTruthy args.afterPost then args.afterPost else none
  let beforeCur := if idTruthy args.beforePost then args.beforePost else none
  if (match args.afterTime, args.beforeTime with
      | some a, some b => decide (a < b)
      | _, _ => false) = true then
    RunOutcome.finished ProcessPostResult.NothingRequested 0 [] 0
  else if args.timeDirection = OrderDirection.Desc ∨ idTruthy args.afterPost then
    processPostsLoop history args fuel (args.offset.fdiv args.bufferSize)
      (args.offset.fmod args.bufferSize) afterCur beforeCur {}
  else
    let page0 := max 0 (messageCount.fdiv args.bufferSize -
      (if messageCount.fmod args.bufferSize = 0 then 1 else 0))
    match probeLastPage history args.bufferSize fuel page0 0 with
    | none => RunOutcome.outOfFuel
    | some (page, pr, reqs) =>
      let absoluteMessageOffset := page * args.bufferSize + (pr.order.length : Int) - args.offset
      let page2 := max 0 (absoluteMessageOffset.fdiv args.bufferSize -
        (if absoluteMessageOffset.fmod args.bufferSize = 0 then 1 else 0))
      let pageOffset :=
        if messageCount.fmod args.bufferSize < args.offset then
          args.bufferSize - absoluteMessageOffset.fmod args.bufferSize
        else args.offset
      if pageOffset < args.bufferSize then
        processPostsLoop history args fuel page2 pageOffset afterCur beforeCur
          { requests := reqs }
      else RunOutcome.crashed

/-- ChannelOptions dataclass of config.py with its defaults, restricted to
the fields the download planning consumes (the attachment, emoji and avatar
switches do not enter the planner). -/
structure ChannelOptions where
  postsAfterId : Option Id := none
  postsBeforeId : Option Id := none
  postsBeforeTime : Option Time := none
  postsAfterTime : Option Time := none
  postLimit : Int := -1
  postSessionLimit : Int := -1
  onExistingCompatibleArchive : RecoveryAction := RecoveryAction.RReuse
  onExistingIncompatibleArchive : RecoveryAction := RecoveryAction.RBackup
  downloadTimeDirection : OrderDirection := OrderDirection.Asc
deriving DecidableEq, Repr

/-- Result of Saver.reduceChannelDownloadConstraints: the source returns True
for a from-scratch redownload, False when no download is necessary, or the
reduced ChannelOptions for an append. -/
inductive ReduceResult where
  | fromScratch
  | nothingToDo
  | append (options : ChannelOptions)
deriving DecidableEq, Repr

/-- Conversion of the planner's bool returns: True means redownload from
scratch, False means nothing to do. -/
def boolToReduceResult (b : Bool) : ReduceResult :=
  if b then ReduceResult.fromScratch else ReduceResult.nothingToDo

/-- Local function continueStorage of reduceChannelDownloadConstraints
(saver.py lines 499-523), called when exactly all posts in storage are part
of the requested data.  Returns the updated options and, when the post limit
is already covered by the archive, the early False result. -/
def continueStorage (storage : PostStorage) (options : ChannelOptions) :
    ChannelOptions × Option Bool :=
  match options.downloadTimeDirection with
  | OrderDirection.Asc =>
    if options.postLimit ≠ -1 then
      if options.postLimit ≤ storage.count then (options, some false)
      else
        ({ options with
            postLimit := options.postLimit - storage.count
            postsAfterId := some storage.lastPostId
            postsAfterTime := some storage.endTime }, none)
    else
      ({ options with
          postsAfterId := some storage.lastPostId
          postsAfterTime := some storage.endTime }, none)
  | OrderDirection.Desc =>
    if options.postLimit ≠ -1 then
      if options.postLimit ≤ storage.count then (options, some false)
      else
        ({ options with
            postLimit := options.postLimit - storage.count
            postsBeforeId := some storage.lastPostId
            postsBeforeTime := some storage.endTime }, none)
    else
      ({ options with
          postsBeforeId := some storage.lastPostId
          postsBeforeTime := some storage.endTime }, none)

/-- Local function getBeginIdTime (saver.py lines 444-455): resolves the
request-start post id to a time via a single-post server fetch (the
getPostTime oracle models MattermostDriver.getPostById(...).createTime) and
folds it into the corresponding time bound.  The assert on the id being
present is Except.error. -/
def getBeginIdTime (getPostTime : Id → Time) (options : ChannelOptions) :
    Except Unit (ChannelOptions × Time) :=
  match options.downloadTimeDirection with
  | OrderDirection.Asc =>
    match options.postsAfterId with
    | none => Except.error ()
    | some pid =>
      let postTime := getPostTime pid
      let newTime := match options.postsAfterTime with
        | some t => max postTime t
        | none => postTime
      Except.ok ({ options with postsAfterTime := some newTime }, newTime)
  | OrderDirection.Desc =>
    match options.postsBeforeId with
    | none => Except.error ()
    | some pid =>
      let postTime := getPostTime pid
      let newTime := match options.postsBeforeTime with
        | some t => min postTime t
        | none => postTime
      Except.ok ({ options with postsBeforeTime := some newTime }, newTime)

/-- Local function getEndIdTime (saver.py lines 457-468): like getBeginIdTime
but for the request-end post id, with the min and max mirrored. -/
def getEndIdTime (getPostTime : Id → Time) (options : ChannelOptions) :
    Except Unit (ChannelOptions × Time) :=
  match options.downloadTimeDirection with
  | OrderDirection.Asc =>
    match options.postsBeforeId with
    | none => Except.error ()
    | some pid =>
      let postTime := getPostTime pid
      let newTime := match options.postsBeforeTime with
        | some t => min postTime t
        | none => postTime
      Except.ok ({ options with postsBeforeTime := some newTime }, newTime)
  | OrderDirection.Desc =>
    match options.postsAfterId with
    | none => Except.error ()
    | some pid =>
      let postTime := getPostTime pid
      let newTime := match options.postsAfterTime with
        | some t => max postTime t
        | none => postTime
      Except.ok ({ options with postsAfterTime := some newTime }, newTime)

/-- Local function getEndTime (saver.py lines 470-497): computes the
requested interval's end, short-circuiting through the storage's known
boundary ids before resorting to a server fetch; with no end constraint the
end defaults to one past lastChannelMessageTime (ascending) or time zero
(descending). -/
def getEndTime (getPostTime : Id → Time) (storage : PostStorage)
    (lastChannelMessageTime : Time) (options : ChannelOptions) :
    Except Unit (ChannelOptions × Time) :=
  match options.downloadTimeDirection with
  | OrderDirection.Asc =>
    if options.postsBeforeId ≠ none ∨ options.postsBeforeTime ≠ none then
      match options.postsBeforeId with
      | some pid =>
        let minBegin : Time := match options.postsBeforeTime with
          | some t => min t storage.beginTime
          | none => storage.beginTime
        let minEnd : Time := match options.postsBeforeTime with
          | some t => min t storage.endTime
          | none => storage.endTime
        let step : Except Unit ChannelOptions :=
          if pid = storage.firstPostId then
            Except.ok { options with postsBeforeTime := some minBegin }
          else if pid = storage.lastPostId then
            Except.ok { options with postsBeforeTime := some minEnd }
          else
            match getEndIdTime getPostTime options with
            | Except.error e => Except.error e
            | Except.ok (o, _) => Except.ok o
        match step with
        | Except.error e => Except.error e
        | Except.ok o =>
          match o.postsBeforeTime with
          | some t => Except.ok (o, t)
          | none => Except.error ()
      | none =>
        match options.postsBeforeTime with
        | some t => Except.ok (options, t)
        | none => Except.error ()
    else
      Except.ok ({ options with postsBeforeTime := some (lastChannelMessageTime + 1) },
        lastChannelMessageTime + 1)
  | OrderDirection.Desc =>
    if options.postsAfterId ≠ none ∨ options.postsAfterTime ≠ none then
      match options.postsAfterId with
      | some pid =>
        let minBegin : Time := match options.postsAfterTime with
          | some t => min t storage.beginTime
          | none => storage.beginTime
        let minEnd : Time := match options.postsAfterTime with
          | some t => min t storage.endTime
          | none => storage.endTime
        let step : Except Unit ChannelOptions :=
          if pid = storage.firstPostId then
            Except.ok { options with postsAfterTime := some minBegin }
          else if pid = storage.lastPostId then
            Except.ok { options with postsAfterTime := some minEnd }
          else
            match getEndIdTime getPostTime options with
            | Except.error e => Except.error e
            | Except.ok (o, _) => Except.ok o
        match step with
        | Except.error e => Except.error e
        | Except.ok o =>
          match o.postsAfterTime with
          | some t => Except.ok (o, t)
          | none => Except.error ()
      | none =>
        match options.postsAfterTime with
        | some t => Except.ok (options, t)
        | none => Except.error ()
    else
      Except.ok ({ options with postsAfterTime := some 0 }, 0)

/-- Local function updateOptsWithBeginTime (saver.py lines 525-552):
classifies the resolved request start against the storage interval, possibly
delegating to continueStorage.  The returned option mirrors the Python
early-return value (None, True or False). -/
def updateOptsWithBeginTime (storage : PostStorage) (options : ChannelOptions) :
    Except Unit (ChannelOptions × Option Bool) :=
  match options.downloadTimeDirection with
  | OrderDirection.Asc =>
    match options.postsAfterTime with
    | none => Except.error ()
    | some atv =>
      if atv < storage.beginTime then Except.ok (options, some true)
      else if atv < storage.endTime then
        let (o, res) := continueStorage storage options
        Except.ok (o, res)
      else if atv = storage.endTime then Except.ok (options, none)
      else Except.ok (options, some true)
  | OrderDirection.Desc =>
    match options.postsBeforeTime with
    | none => Except.error ()
    | some btv =>
      if storage.beginTime < btv then Except.ok (options, some true)
      else if storage.endTime < btv then
        let (o, res) := continueStorage storage options
        Except.ok (o, res)
      else if btv = storage.endTime then Except.ok (options, none)
      else Except.ok (options, some true)

/-- First phase of the ascending planner branch (saver.py lines 554-580):
resolve the request start against the archive, with the early returns of the
source carried as Sum.inl. -/
def reduceAscStart (getPostTime : Id → Time) (storage : PostStorage)
    (lastChannelMessageTime : Time) (options : ChannelOptions) :
    Except Unit (Sum ReduceResult ChannelOptions) :=
  if options.postsAfterTime ≠ none ∨ options.postsAfterId ≠ none then
    let afterIdStep : Except Unit (Sum ReduceResult ChannelOptions) :=
      match options.postsAfterId with
      | some pid =>
        if storage.postIdBeforeFirst = some pid then
          match continueStorage storage options with
          | (_, some r) => Except.ok (Sum.inl (boolToReduceResult r))
          | (o, none) =>
            if o.postsAfterTime = none then Except.error () else Except.ok (Sum.inr o)
        else if pid = storage.lastPostId then
          Except.ok (Sum.inr { options with postsAfterTime := some storage.endTime })
        else
          match getBeginIdTime getPostTime options with
          | Except.error e => Except.error e
          | Except.ok (o, _) =>
            if o.postsAfterTime = none then Except.error () else Except.ok (Sum.inr o)
      | none => Except.ok (Sum.inr options)
    match afterIdStep with
    | Except.error e => Except.error e
    | Except.ok (Sum.inl r) => Except.ok (Sum.inl r)
    | Except.ok (Sum.inr o) =>
      match updateOptsWithBeginTime storage o with
      | Except.error e => Except.error e
      | Except.ok (_, some r) => Except.ok (Sum.inl (boolToReduceResult r))
      | Except.ok (o2, none) => Except.ok (Sum.inr o2)
  else
    if storage.postIdBeforeFirst ≠ none then Except.ok (Sum.inl ReduceResult.fromScratch)
    else if storage.endTime = lastChannelMessageTime then
      Except.ok (Sum.inl ReduceResult.nothingToDo)
    else if ¬ storage.endTime < lastChannelMessageTime then Except.error ()
    else
      match continueStorage storage options with
      | (_, some r) => Except.ok (Sum.inl (boolToReduceResult r))
      | (o, none) => Except.ok (Sum.inr o)

/-- The boundary-id membership test of saver.py lines 584 and 627: the
request-end post id equals one of the storage's known boundary ids
(postIdBeforeFirst, firstPostId, lastPostId, postIdAfterLast), where the
optional boundaries match only when present. -/
def isKnownBoundaryId (storage : PostStorage) (o : Option Id) : Bool :=
  match o with
  | some pid =>
    storage.postIdBeforeFirst == some pid || pid == storage.firstPostId ||
      pid == storage.lastPostId || storage.postIdAfterLast == some pid
  | none => false

/-- Second phase of the ascending planner branch (saver.py lines 581-594):
the assert on a resolved start time, the boundary-id short circuit for the
request end, the end-time resolution and the final interval checks. -/
def reduceAscTail (getPostTime : Id → Time) (storage : PostStorage)
    (lastChannelMessageTime : Time) (options : ChannelOptions) :
    Except Unit ReduceResult :=
  if options.postsAfterTime = none then Except.error ()
  else if isKnownBoundaryId storage options.postsBeforeId then
    Except.ok ReduceResult.nothingToDo
  else
    match getEndTime getPostTime storage lastChannelMessageTime options with
    | Except.error e => Except.error e
    | Except.ok (o, _) =>
      match o.postsBeforeTime with
      | none => Except.error ()
      | some btv =>
        if btv ≤ storage.endTime then Except.ok ReduceResult.nothingToDo
        else
          match o.postsAfterTime with
          | none => Except.error ()
          | some atv =>
            if btv < atv then Except.ok ReduceResult.nothingToDo
            else Except.ok (ReduceResult.append o)

/-- First phase of the descending planner branch (saver.py lines 599-623),
mirroring reduceAscStart in the other time direction. -/
def reduceDescStart (getPostTime : Id → Time) (storage : PostStorage)
    (lastChannelMessageTime : Time) (options : ChannelOptions) :
    Except Unit (Sum ReduceResult ChannelOptions) :=
  if options.postsBeforeTime ≠ none ∨ options.postsBeforeId ≠ none then
    let beforeIdStep : Except Unit (Sum ReduceResult ChannelOptions) :=
      match options.postsBeforeId with
      | some pid =>
        if storage.postIdBeforeFirst = some pid then
          match continueStorage storage options with
          | (_, some r) => Except.ok (Sum.inl (boolToReduceResult r))
          | (o, none) =>
            if o.postsBeforeTime = none then Except.error () else Except.ok (Sum.inr o)
        else if pid = storage.lastPostId then
          Except.ok (Sum.inr { options with postsBeforeTime := some storage.endTime })
        else
          match getBeginIdTime getPostTime options with
          | Except.error e => Except.error e
          | Except.ok (o, _) =>
            if o.postsBeforeTime = none then Except.error () else Except.ok (Sum.inr o)
      | none => Except.ok (Sum.inr options)
    match beforeIdStep with
    | Except.error e => Except.error e
    | Except.ok (Sum.inl r) => Except.ok (Sum.inl r)
    | Except.ok (Sum.inr o) =>
      match updateOptsWithBeginTime storage o with
      | Except.error e => Except.error e
      | Except.ok (_, some r) => Except.ok (Sum.inl (boolToReduceResult r))
      | Except.ok (o2, none) => Except.ok (Sum.inr o2)
  else
    if storage.postIdBeforeFirst ≠ none then Except.ok (Sum.inl ReduceResult.fromScratch)
    else if storage.beginTime < lastChannelMessageTime then
      Except.ok (Sum.inl ReduceResult.fromScratch)
    else if lastChannelMessageTime ≠ storage.beginTime then Except.error ()
    else
      match continueStorage storage options with
      | (_, some r) => Except.ok (Sum.inl (boolToReduceResult r))
      | (o, none) => Except.ok (Sum.inr o)

/-- Second phase of the descending planner branch (saver.py lines 624-637). -/
def reduceDescTail (getPostTime : Id → Time) (storage : PostStorage)
    (lastChannelMessageTime : Time) (options : ChannelOptions) :
    Except Unit ReduceResult :=
  if options.postsBeforeTime = none then Except.error ()
  else if isKnownBoundaryId storage options.postsAfterId then
    Except.ok ReduceResult.nothingToDo
  else
    match getEndTime getPostTime storage lastChannelMessageTime options with
    | Except.error e => Except.error e
    | Except.ok (o, _) =>
      match o.postsAfterTime with
      | none => Except.error ()
      | some atv =>
        if storage.endTime ≤ atv then Except.ok ReduceResult.nothingToDo
        else
          match o.postsBeforeTime with
          | none => Except.error ()
          | some btv =>
            if atv < btv then Except.ok ReduceResult.nothingToDo
            else Except.ok (ReduceResult.append o)

/-- Saver.reduceChannelDownloadConstraints of saver.py (lines 342-637): the
incremental download planner.  Callers guarantee a nonzero postLimit and a
nonempty archive storage.  getPostTime is the id-to-creation-time server
oracle; internal assert statements surface as Except.error. -/
def reduceChannelDownloadConstraints (getPostTime : Id → Time)
    (channelOptions : ChannelOptions) (storage : PostStorage)
    (lastChannelMessageTime : Time) : Except Unit ReduceResult :=
  let newOrganization :=
    if channelOptions.downloadTimeDirection = OrderDirection.Asc then
      PostOrdering.AscendingContinuous
    else PostOrdering.DescendingContinuous
  if newOrganization ≠ storage.organization then Except.ok ReduceResult.fromScratch
  else
    match channelOptions.downloadTimeDirection with
    | OrderDirection.Asc =>
      match reduceAscStart getPostTime storage lastChannelMessageTime channelOptions with
      | Except.error e => Except.error e
      | Except.ok (Sum.inl r) => Except.ok r
      | Except.ok (Sum.inr o) =>
        reduceAscTail getPostTime storage lastChannelMessageTime o
    | OrderDirection.Desc =>
      match reduceDescStart getPostTime storage lastChannelMessageTime channelOptions with
      | Except.error e => Except.error e
      | Except.ok (Sum.inl r) => Except.ok r
      | Except.ok (Sum.inr o) =>
        reduceDescTail getPostTime storage lastChannelMessageTime o

/-- The fetcher parameter pack assembled by Saver.getChannelDownloaderParams
(the keyword arguments later passed to MattermostDriver.processPosts). -/
structure DownloadParams where
  timeDirection : OrderDirection
  maxCount : Option Int := none
  afterPost : Option Id := none
  afterTime : Option Time := none
  beforePost : Option Id := none
  beforeTime : Option Time := none
deriving DecidableEq, Repr

/-- The before-constraint part of the parameter assembly (saver.py lines
688-691): a truthy postsBeforeId wins over postsBeforeTime. -/
def withBeforeParams (p : DownloadParams) (options : ChannelOptions) : DownloadParams :=
  if idTruthy options.postsBeforeId then { p with beforePost := options.postsBeforeId }
  else if options.postsBeforeTime ≠ none then { p with beforeTime := options.postsBeforeTime }
  else p

/-- Saver.getChannelDownloaderParams of saver.py (lines 639-693).
archiveStorage is none when no archive header exists and otherwise carries
the loaded header's storage option; the result is none when nothing needs to
be downloaded, and otherwise the from-scratch indicator together with the
fetcher parameters.  The assert that a previously downloaded channel has a
lastChannelMessageTime is Except.error. -/
def getChannelDownloaderParams (getPostTime : Id → Time) (options0 : ChannelOptions)
    (archiveStorage : Option (Option PostStorage)) (lastChannelMessageTime : Option Time) :
    Except Unit (Option (Bool × DownloadParams)) :=
  let emptyArchive : Bool :=
    match archiveStorage with
    | none => true
    | some none => true
    | some (some _) => false
  let truncateArchive : Bool := archiveStorage.isNone
  if emptyArchive && lastChannelMessageTime.isNone then Except.ok none
  else
    let step : Except Unit (Sum Unit (Bool × ChannelOptions)) :=
      if ¬ (emptyArchive || truncateArchive) then
        match archiveStorage, lastChannelMessageTime with
        | some (some st), some last =>
          match reduceChannelDownloadConstraints getPostTime options0 st last with
          | Except.error e => Except.error e
          | Except.ok ReduceResult.fromScratch => Except.ok (Sum.inr (true, options0))
          | Except.ok ReduceResult.nothingToDo => Except.ok (Sum.inl ())
          | Except.ok (ReduceResult.append o) => Except.ok (Sum.inr (truncateArchive, o))
        | some (some _), none => Except.error ()
        | _, _ => Except.error ()
      else Except.ok (Sum.inr (truncateArchive, options0))
    match step with
    | Except.error e => Except.error e
    | Except.ok (Sum.inl _) => Except.ok none
    | Except.ok (Sum.inr (truncate, options)) =>
      let maxCount : Option Int :=
        if 0 < options.postLimit ∨ 0 < options.postSessionLimit then
          if options.postLimit = -1 then some options.postSessionLimit
          else if options.postSessionLimit = -1 then some options.postLimit
          else some (min options.postLimit options.postSessionLimit)
        else none
      let base : DownloadParams :=
        { timeDirection := options.downloadTimeDirection, maxCount := maxCount }
      if idTruthy options.postsAfterId then
        Except.ok (some (truncate,
          withBeforeParams { base with afterPost := options.postsAfterId } options))
      else if options.postsAfterTime ≠ none then
        if (match options.postsBeforeTime, options.postsAfterTime with
            | some b, some a => decide (b < a)
            | _, _ => false) = true then
          Except.ok none
        else
          Except.ok (some (truncate,
            withBeforeParams { base with afterTime := options.postsAfterTime } options))
      else Except.ok (some (truncate, withBeforeParams base options))

/-- RecoveryArbiter.onArchiveReuse of recovery.py (lines 65-83): driven by
the per-channel configuration; an incompatible archive whose configured
action is delete is kept for rollback by answering RReuse. -/
def RecoveryArbiter.onArchiveReuse (options : ChannelOptions) (reusable : Bool) :
    RecoveryAction :=
  if reusable then options.onExistingCompatibleArchive
  else if options.onExistingIncompatibleArchive = RecoveryAction.RDelete then
    RecoveryAction.RReuse
  else options.onExistingIncompatibleArchive

/-- The file-level outcome of processing one channel: every outcome except
downloaded returns before the data file is opened and the header rewritten. -/
inductive ChannelOutcome where
  | limitZeroSkip
  | downloadSkipped
  | noDownloadNeeded
  | downloaded (fromScratch : Bool) (params : DownloadParams)
deriving DecidableEq, Repr

/-- Whether a channel-processing outcome reaches the download-and-write phase
that creates or rewrites the header file (saver.py lines 920-1009). -/
def headerWritten : ChannelOutcome → Bool
  | ChannelOutcome.downloaded _ _ => true
  | _ => false

/-- Decision skeleton of Saver.processChannel (saver.py lines 849-918): the
zero-limit early exit, loading and arbitrating the previous archive, the
planner call and the archive-reuse arbitration.  Pre-existing backup files
(which could turn a backup step into a skip) are outside the model. -/
def processChannel (getPostTime : Id → Time) (options : ChannelOptions)
    (headerInfo : Option (Option PostStorage)) (dataFileSize : Option Int)
    (lastChannelMessageTime : Option Time) : Except Unit ChannelOutcome :=
  if options.postLimit = 0 ∨ options.postSessionLimit = 0 then
    Except.ok ChannelOutcome.limitZeroSkip
  else
    match loadPreviousChannelArchive RecoveryArbiter.onMissizedDataFile headerInfo dataFileSize with
    | Except.error e => Except.error e
    | Except.ok prev =>
      let step : Sum ChannelOutcome (Option (Option PostStorage)) :=
        match prev with
        | LoadPrevOutcome.strategy RecoveryAction.RSkipDownload =>
          Sum.inl ChannelOutcome.downloadSkipped
        | LoadPrevOutcome.strategy _ => Sum.inr none
        | LoadPrevOutcome.loaded => Sum.inr headerInfo
        | LoadPrevOutcome.loadedTruncated _ => Sum.inr headerInfo
      match step with
      | Sum.inl out => Except.ok out
      | Sum.inr archive =>
        match getChannelDownloaderParams getPostTime options archive lastChannelMessageTime with
        | Except.error e => Except.error e
        | Except.ok none => Except.ok ChannelOutcome.noDownloadNeeded
        | Except.ok (some (fromScratch, params)) =>
          match archive with
          | some _ =>
            match RecoveryArbiter.onArchiveReuse options (¬ fromScratch) with
            | RecoveryAction.RSkipDownload => Except.ok ChannelOutcome.downloadSkipped
            | _ => Except.ok (ChannelOutcome.downloaded fromScratch params)
          | none => Except.ok (ChannelOutcome.downloaded fromScratch params)

/-! Claim theorems. -/

/-- Claim C2 (code_bug): the claim states that a call with beforeTime <
afterTime (an empty requested interval) returns NothingRequested before any
server request.  The code has the comparison inverted: with beforeTime 100 <
afterTime 200 the fetcher issues two server requests and returns
ConditionReached, while the valid request afterTime 100 < beforeTime 200
returns NothingRequested without fetching anything. -/
theorem processPosts_empty_interval_inverted :
    processPosts
      [{ id := "p1", user_id := "u", create_at := 150, message := "a",
         update_at := 150, edit_at := 0, delete_at := 0 }] 1
      { beforeTime := some 100, afterTime := some 200 } 10 =
      RunOutcome.finished ProcessPostResult.ConditionReached 2 [] 0
    ∧ processPosts
      [{ id := "p1", user_id := "u", create_at := 150, message := "a",
         update_at := 150, edit_at := 0, delete_at := 0 }] 1
      { beforeTime := some 200, afterTime := some 100 } 10 =
      RunOutcome.finished ProcessPostResult.NothingRequested 0 [] 0
    ∧ ProcessPostResult.ConditionReached ≠ ProcessPostResult.NothingRequested := by
  refine ⟨by decide, by decide, by decide⟩

/-- Claim C5 (code_bug): the claim states that an ascending fetch with
offset strictly greater than the channel's messageCount returns NoMorePosts
without invoking the processor.  The source's offset guard is commented out:
with three posts and offset 5 the run does return NoMorePosts, but the
processor is invoked once, on the newest post p3. -/
theorem processPosts_offset_beyond_end_processes_post :
    processPosts
      [{ id := "p1", user_id := "u", create_at := 100, message := "a",
         update_at := 100, edit_at := 0, delete_at := 0 },
       { id := "p2", user_id := "u", create_at := 200, message := "b",
         update_at := 200, edit_at := 0, delete_at := 0 },
       { id := "p3", user_id := "u", create_at := 300, message := "c",
         update_at := 300, edit_at := 0, delete_at := 0 }] 3
      { offset := 5 } 10 =
      RunOutcome.finished ProcessPostResult.NoMorePosts 2 ["p3"] 0
    ∧ (["p3"] : List Id) ≠ [] := by
  refine ⟨by decide, by decide⟩

/-- Claim C7 (code_bug): the claim states that decoding a team whose type
tag is unknown yields TeamType Open with a warning, like the channel
decoder.  Team.fromMattermost instead calls the plain enum constructor,
which raises ValueError on the tag X, even though TeamType.fromMattermost
(which does degrade to Open with a warning) exists; Channel.fromMattermost
does degrade unknown tags to ChannelType Open with a warning. -/
theorem team_unknown_type_raises_channel_degrades :
    Team.fromMattermost
      { id := "t1", display_name := "T", name := "t", type := "X",
        create_at := 1000, update_at := 1000, delete_at := 0,
        description := "", invite_id := "" } = Except.error ()
    ∧ TeamType.fromMattermost "X" = (TeamType.Open, true)
    ∧ (Channel.fromMattermost
        { id := "c1", display_name := "C", name := "c", type := "X",
          create_at := 1000, update_at := 1000, delete_at := 0,
          header := "", purpose := "", last_post_at := 0,
          total_msg_count := 0, creator_id := "" }).1.type = ChannelType.Open
    ∧ (Channel.fromMattermost
        { id := "c1", display_name := "C", name := "c", type := "X",
          create_at := 1000, update_at := 1000, delete_at := 0,
          header := "", purpose := "", last_post_at := 0,
          total_msg_count := 0, creator_id := "" }).2 = true := by
  refine ⟨rfl, rfl, rfl, rfl⟩

/-- Claim C3 counterexample: update does not set count to the new storage's
count.  With an existing count of 3 and a new adjacent storage of count 2,
the merged count is 5, not 2. -/
theorem postStorage_update_sums_count :
    (PostStorage.update
      { count := 3, organization := PostOrdering.AscendingContinuous,
        byteSize := 100, lastPostId := "p3", endTime := 300 }
      { count := 2, organization := PostOrdering.AscendingContinuous,
        byteSize := 160, postIdBeforeFirst := some "p3", lastPostId := "p5",
        endTime := 500 }).map PostStorage.count = Except.ok 5
    ∧ (5 : Int) ≠ 2 := by
  refine ⟨rfl, by decide⟩

/-- Claim C3 (corrected): for storages sharing an organization, a nonempty
adjacent new storage makes update take byteSize, lastPostId, endTime and
postIdAfterLast from the new storage while increasing count by the new
storage's count; a new storage with count 0 makes update a no-op that does
not require the adjacency condition. -/
theorem postStorage_update_spec (s o : PostStorage)
    (horg : o.organization = s.organization) :
    (0 < o.count → o.postIdBeforeFirst = some s.lastPostId →
      PostStorage.update s o = Except.ok { s with
        count := s.count + o.count
        byteSize := o.byteSize
        lastPostId := o.lastPostId
        endTime := o.endTime
        postIdAfterLast := o.postIdAfterLast })
    ∧ (o.count = 0 → PostStorage.update s o = Except.ok s) := by
  constructor
  · intro hc hadj
    simp [PostStorage.update, horg, hc, hadj]
  · intro hc
    simp [PostStorage.update, horg, hc]

/-- Claim C3 witness: the general update theorem applied to concrete
storages, including an empty extension whose postIdBeforeFirst does not
match the existing lastPostId. -/
theorem postStorage_update_spec_witness :
    PostStorage.update
      { count := 3, organization := PostOrdering.AscendingContinuous,
        byteSize := 100, lastPostId := "p3", endTime := 300 }
      { count := 2, organization := PostOrdering.AscendingContinuous,
        byteSize := 160, postIdBeforeFirst := some "p3", lastPostId := "p5",
        endTime := 500 } = Except.ok
      { count := 5, organization := PostOrdering.AscendingContinuous,
        byteSize := 160, lastPostId := "p5", endTime := 500 }
    ∧ PostStorage.update
      { count := 3, organization := PostOrdering.AscendingContinuous,
        byteSize := 100, lastPostId := "p3", endTime := 300 }
      { count := 0, organization := PostOrdering.AscendingContinuous,
        postIdBeforeFirst := some "unrelated" } = Except.ok
      { count := 3, organization := PostOrdering.AscendingContinuous,
        byteSize := 100, lastPostId := "p3", endTime := 300 } :=
  ⟨(postStorage_update_spec
      { count := 3, organization := PostOrdering.AscendingContinuous,
        byteSize := 100, lastPostId := "p3", endTime := 300 }
      { count := 2, organization := PostOrdering.AscendingContinuous,
        byteSize := 160, postIdBeforeFirst := some "p3", lastPostId := "p5",
        endTime := 500 } rfl).1 (by decide) rfl,
   (postStorage_update_spec
      { count := 3, organization := PostOrdering.AscendingContinuous,
        byteSize := 100, lastPostId := "p3", endTime := 300 }
      { count := 0, organization := PostOrdering.AscendingContinuous,
        postIdBeforeFirst := some "unrelated" } rfl).2 rfl⟩

/-- Claim C6 counterexample: on a data file of 500 bytes against a recorded
byteSize of 300 (actual greater than recorded), the default arbiter answers
Backup, not Reuse, so the archive is backed up and redownloaded rather than
truncated and kept. -/
theorem missized_default_backup_not_reuse :
    loadPreviousChannelArchive RecoveryArbiter.onMissizedDataFile
      (some (some { byteSize := 300, count := 3 })) (some 500) =
      Except.ok (LoadPrevOutcome.strategy RecoveryAction.RBackup)
    ∧ RecoveryAction.RBackup ≠ RecoveryAction.RReuse := by
  refine ⟨rfl, by decide⟩

/-- Claim C6 (corrected): whenever the data file size differs from the
recorded byteSize, the default arbiter chooses Backup; truncation to the
recorded byteSize happens only under an arbiter that answers Reuse, and only
when the actual size exceeds the recorded one. -/
theorem loadPrevious_missized_default_behavior (st : PostStorage) (n : Int)
    (hne : st.byteSize ≠ n) :
    loadPreviousChannelArchive RecoveryArbiter.onMissizedDataFile
      (some (some st)) (some n) =
      Except.ok (LoadPrevOutcome.strategy RecoveryAction.RBackup)
    ∧ (st.byteSize < n →
        loadPreviousChannelArchive (fun _ _ => RecoveryAction.RReuse)
          (some (some st)) (some n) =
          Except.ok (LoadPrevOutcome.loadedTruncated st.byteSize)) := by
  constructor
  · simp only [loadPreviousChannelArchive, RecoveryArbiter.onMissizedDataFile, hne]
    split <;> simp
  · intro hlt
    simp [loadPreviousChannelArchive, hne, hlt]

/-- Claim C6 witness: the default-arbiter theorem applied at recorded size
300 and actual size 500. -/
theorem loadPrevious_missized_default_behavior_witness :
    loadPreviousChannelArchive RecoveryArbiter.onMissizedDataFile
      (some (some ({ byteSize := 300, count := 3 } : PostStorage))) (some 500) =
      Except.ok (LoadPrevOutcome.strategy RecoveryAction.RBackup)
    ∧ loadPreviousChannelArchive (fun _ _ => RecoveryAction.RReuse)
      (some (some ({ byteSize := 300, count := 3 } : PostStorage))) (some 500) =
      Except.ok (LoadPrevOutcome.loadedTruncated 300) :=
  ⟨(loadPrevious_missized_default_behavior { byteSize := 300, count := 3 } 500
      (by decide)).1,
   (loadPrevious_missized_default_behavior { byteSize := 300, count := 3 } 500
      (by decide)).2 (by decide)⟩

/-- Claim C9 counterexample: a server post with create_at 100, update_at 50
and edit_at 100 decodes to updateTime 50, which is not strictly greater than
createTime 100, and to publicUpdateTime 100, which equals createTime. -/
theorem post_decoder_counterexample :
    (Post.fromMattermost
      { id := "p", user_id := "u", create_at := 100, message := "m",
        update_at := 50, edit_at := 100, delete_at := 0 }).updateTime = some 50
    ∧ (Post.fromMattermost
      { id := "p", user_id := "u", create_at := 100, message := "m",
        update_at := 50, edit_at := 100, delete_at := 0 }).createTime = 100
    ∧ ¬ (100 : Int) < 50
    ∧ (Post.fromMattermost
      { id := "p", user_id := "u", create_at := 100, message := "m",
        update_at := 50, edit_at := 100, delete_at := 0 }).publicUpdateTime =
      some (Post.fromMattermost
      { id := "p", user_id := "u", create_at := 100, message := "m",
        update_at := 50, edit_at := 100, delete_at := 0 }).createTime := by
  refine ⟨rfl, rfl, by decide, rfl⟩

/-- Claim C9 (corrected): what the decoder does guarantee is that updateTime,
when set, differs from createTime, and that publicUpdateTime, when set, is
nonzero and differs from updateTime whenever updateTime is set; neither field
is ordered against createTime. -/
theorem post_fromMattermost_time_facts (j : PostJson) :
    (∀ t : Int, (Post.fromMattermost j).updateTime = some t →
      t ≠ (Post.fromMattermost j).createTime)
    ∧ (∀ t : Int, (Post.fromMattermost j).publicUpdateTime = some t →
        t ≠ 0 ∧ ∀ u : Int, (Post.fromMattermost j).updateTime = some u → t ≠ u) := by
  have hc : (Post.fromMattermost j).createTime = j.create_at := rfl
  by_cases hU : j.update_at = j.create_at
  · have hu : (Post.fromMattermost j).updateTime = none := by
      simp [Post.fromMattermost, hU]
    have hp : (Post.fromMattermost j).publicUpdateTime =
        (if j.edit_at ≠ 0 then some j.edit_at else none) := by
      simp [Post.fromMattermost, hU]
    constructor
    · intro t ht
      rw [hu] at ht
      exact absurd ht (by simp)
    · intro t ht
      rw [hp] at ht
      by_cases hE : j.edit_at = 0
      · simp [hE] at ht
      · simp [hE] at ht
        refine ⟨by omega, ?_⟩
        intro u hu2
        rw [hu] at hu2
        exact absurd hu2 (by simp)
  · have hu : (Post.fromMattermost j).updateTime = some j.update_at := by
      simp [Post.fromMattermost, hU]
    have hp : (Post.fromMattermost j).publicUpdateTime =
        (if j.edit_at ≠ 0 ∧ j.edit_at ≠ j.update_at then some j.edit_at else none) := by
      simp [Post.fromMattermost, hU]
    constructor
    · intro t ht
      rw [hu] at ht
      rw [hc]
      simp at ht
      omega
    · intro t ht
      rw [hp] at ht
      by_cases hE : j.edit_at = 0
      · simp [hE] at ht
      · by_cases hEU : j.edit_at = j.update_at
        · simp [hE, hEU] at ht
        · simp [hE, hEU] at ht
          refine ⟨by omega, ?_⟩
          intro u hu2
          rw [hu] at hu2
          simp at hu2
          omega

/-- Claim C9 witness: the decoder facts applied to a post with create_at
100, update_at 200 and edit_at 300. -/
theorem post_fromMattermost_time_facts_witness :
    (200 : Int) ≠ (Post.fromMattermost
      { id := "p", user_id := "u", create_at := 100, message := "m",
        update_at := 200, edit_at := 300, delete_at := 0 }).createTime
    ∧ ((300 : Int) ≠ 0 ∧ ∀ u : Int, (Post.fromMattermost
      { id := "p", user_id := "u", create_at := 100, message := "m",
        update_at := 200, edit_at := 300, delete_at := 0 }).updateTime = some u →
      (300 : Int) ≠ u) :=
  ⟨(post_fromMattermost_time_facts
      { id := "p", user_id := "u", create_at := 100, message := "m",
        update_at := 200, edit_at := 300, delete_at := 0 }).1 200 rfl,
   (post_fromMattermost_time_facts
      { id := "p", user_id := "u", create_at := 100, message := "m",
        update_at := 200, edit_at := 300, delete_at := 0 }).2 300 rfl⟩

/-- Claim C8 counterexample: for a channel with no messages (no
lastMessageTime) and no pre-existing archive, processing exits at the
planner's nothing-to-download result, before the phase that creates the
header file; no header is written, with or without storage field. -/
theorem empty_channel_writes_no_header :
    processChannel (fun _ => 0) {} none none none =
      Except.ok ChannelOutcome.noDownloadNeeded
    ∧ headerWritten ChannelOutcome.noDownloadNeeded = false := by
  refine ⟨rfl, rfl⟩

/-- Claim C8 (corrected): for every configuration, a channel with no
messages and no pre-existing archive is either skipped by the zero-limit
early exit or abandoned at the planner's nothing-to-download result; in
both cases the header-writing phase is never reached, so no header file is
created. -/
theorem processChannel_no_archive_empty_channel (g : Id → Time)
    (opts : ChannelOptions) :
    (processChannel g opts none none none = Except.ok ChannelOutcome.limitZeroSkip
      ∨ processChannel g opts none none none = Except.ok ChannelOutcome.noDownloadNeeded)
    ∧ headerWritten ChannelOutcome.limitZeroSkip = false
    ∧ headerWritten ChannelOutcome.noDownloadNeeded = false := by
  refine ⟨?_, rfl, rfl⟩
  have h2 : getChannelDownloaderParams g opts none none = Except.ok none := rfl
  by_cases h : opts.postLimit = 0 ∨ opts.postSessionLimit = 0
  · exact Or.inl (by unfold processChannel; rw [if_pos h])
  · refine Or.inr ?_
    unfold processChannel
    rw [if_neg h]
    exact congrArg (fun r => match r with
      | Except.error e => Except.error e
      | Except.ok none => Except.ok ChannelOutcome.noDownloadNeeded
      | Except.ok (some (fromScratch, params)) =>
        Except.ok (ChannelOutcome.downloaded fromScratch params)) h2

/-- Claim C1 counterexample: with an ascending-continuous archive starting
at the channel origin (postIdBeforeFirst none) and ending at time 300, a
lastChannelMessageTime of 50 (less than endTime, which the claim includes in
its nothing-to-do case) makes the planner fail its internal assertion
instead of returning the no-download result. -/
theorem reduce_origin_lastTime_below_endTime_asserts :
    reduceChannelDownloadConstraints (fun _ => 0) {}
      { count := 3, organization := PostOrdering.AscendingContinuous,
        byteSize := 57, beginTime := 100, firstPostId := "p1",
        endTime := 300, lastPostId := "p3" } 50 = Except.error ()
    ∧ (Except.error () : Except Unit ReduceResult) ≠
      Except.ok ReduceResult.nothingToDo := by
  refine ⟨rfl, by simp⟩

/-- Claim C1 (corrected): for an ascending-continuous archive and a request
starting from the channel origin with postIdBeforeFirst none, the planner
returns nothing-to-do exactly when lastChannelMessageTime equals the
archive's endTime; a strictly smaller lastChannelMessageTime violates an
internal assertion; a strictly greater one proceeds to the append case,
producing append options with afterPost lastPostId and afterTime endTime
when no post limit or before-constraint interferes. -/
theorem reduce_origin_request_cases (g : Id → Time) (opts : ChannelOptions)
    (st : PostStorage) (last : Time)
    (horg : st.organization = PostOrdering.AscendingContinuous)
    (hdir : opts.downloadTimeDirection = OrderDirection.Asc)
    (haid : opts.postsAfterId = none) (hat : opts.postsAfterTime = none)
    (hbf : st.postIdBeforeFirst = none) :
    (last = st.endTime →
      reduceChannelDownloadConstraints g opts st last =
        Except.ok ReduceResult.nothingToDo)
    ∧ (last < st.endTime →
      reduceChannelDownloadConstraints g opts st last = Except.error ())
    ∧ (st.endTime < last → opts.postLimit = -1 → opts.postsBeforeId = none →
        opts.postsBeforeTime = none →
      reduceChannelDownloadConstraints g opts st last =
        Except.ok (ReduceResult.append { opts with
          postsAfterId := some st.lastPostId
          postsAfterTime := some st.endTime
          postsBeforeTime := some (last + 1) })) := by
  cases opts with
  | mk aid bid btv atv pl psl oca oia dir =>
    dsimp only at hdir haid hat
    subst hdir haid hat
    refine ⟨?_, ?_, ?_⟩
    · intro hlast
      subst hlast
      simp [reduceChannelDownloadConstraints, reduceAscStart, horg, hbf]
    · intro hlt
      have h1 : ¬ st.endTime = last := by intro h; rw [h] at hlt; exact lt_irrefl _ hlt
      have h2 : ¬ st.endTime < last := by intro h; exact lt_asymm hlt h
      simp [reduceChannelDownloadConstraints, reduceAscStart, horg, hbf, h1, h2]
    · intro hgt hpl hbid hbtv
      dsimp only at hpl hbid hbtv
      subst hpl hbid hbtv
      have h1 : ¬ st.endTime = last := by
        intro h; rw [h] at hgt; exact lt_irrefl _ hgt
      have h3 : ¬ (last + 1 ≤ st.endTime) := by
        intro h; exact absurd (lt_of_lt_of_le hgt (by linarith)) (lt_irrefl _)
      have h4 : ¬ (last + 1 < st.endTime) := by
        intro h; exact absurd (lt_trans hgt (by linarith)) (lt_irrefl _)
      simp [reduceChannelDownloadConstraints, reduceAscStart, reduceAscTail,
        continueStorage, getEndTime, isKnownBoundaryId, horg, hbf, h1, hgt, h3, h4]

/-- Claim C1 witness: the three cases of the origin-request theorem at a
concrete archive ending at time 300, with lastChannelMessageTime 300, 50
and 350. -/
theorem reduce_origin_request_cases_witness :
    reduceChannelDownloadConstraints (fun _ => 0) {}
      { count := 3, organization := PostOrdering.AscendingContinuous,
        byteSize := 57, beginTime := 100, firstPostId := "p1",
        endTime := 300, lastPostId := "p3" } 300 =
      Except.ok ReduceResult.nothingToDo
    ∧ reduceChannelDownloadConstraints (fun _ => 0) {}
      { count := 3, organization := PostOrdering.AscendingContinuous,
        byteSize := 57, beginTime := 100, firstPostId := "p1",
        endTime := 300, lastPostId := "p3" } 50 = Except.error ()
    ∧ reduceChannelDownloadConstraints (fun _ => 0) {}
      { count := 3, organization := PostOrdering.AscendingContinuous,
        byteSize := 57, beginTime := 100, firstPostId := "p1",
        endTime := 300, lastPostId := "p3" } 350 =
      Except.ok (ReduceResult.append
        { postsAfterId := some "p3", postsAfterTime := some 300,
          postsBeforeTime := some 351 }) :=
  ⟨(reduce_origin_request_cases (fun _ => 0) {}
      { count := 3, organization := PostOrdering.AscendingContinuous,
        byteSize := 57, beginTime := 100, firstPostId := "p1",
        endTime := 300, lastPostId := "p3" } 300 rfl rfl rfl rfl rfl).1 rfl,
   (reduce_origin_request_cases (fun _ => 0) {}
      { count := 3, organization := PostOrdering.AscendingContinuous,
        byteSize := 57, beginTime := 100, firstPostId := "p1",
        endTime := 300, lastPostId := "p3" } 50 rfl rfl rfl rfl rfl).2.1 (by decide),
   (reduce_origin_request_cases (fun _ => 0) {}
      { count := 3, organization := PostOrdering.AscendingContinuous,
        byteSize := 57, beginTime := 100, firstPostId := "p1",
        endTime := 300, lastPostId := "p3" } 350 rfl rfl rfl rfl rfl).2.2
      (by decide) rfl rfl rfl⟩

/-- Claim C4 counterexample: a second run on an unchanged server is not
always planned as nothing-to-do.  If the channel's last post (created at
300) was edited at 333 before the first run, both runs see
lastChannelMessageTime 333 while the archive records endTime 300, and the
second run's planner returns an append plan, re-entering the download and
header-rewriting phase. -/
theorem second_run_planner_appends_after_edit :
    reduceChannelDownloadConstraints (fun _ => 0) {}
      { count := 2, organization := PostOrdering.AscendingContinuous,
        byteSize := 41, beginTime := 200, firstPostId := "e1",
        endTime := 300, lastPostId := "e2" } 333 =
      Except.ok (ReduceResult.append
        { postsAfterId := some "e2", postsAfterTime := some 300,
          postsBeforeTime := some 334 })
    ∧ ReduceResult.append
      { postsAfterId := some "e2", postsAfterTime := some 300,
        postsBeforeTime := some 334 } ≠ ReduceResult.nothingToDo := by
  refine ⟨rfl, by decide⟩

/-- Claim C4 (corrected): second-run idempotence at the planner level holds
when the request carries no range constraints and the channel's
lastMessageTime still matches the archive boundary recorded by the first
run: equal to endTime for an ascending-continuous archive, and equal to
beginTime (with a positive endTime) for a descending-continuous archive, in
which case the planner decides nothing-to-do for any post limit. -/
theorem second_run_planner_nothing_to_do (g : Id → Time) (opts : ChannelOptions)
    (st : PostStorage) (last : Time) :
    (opts.downloadTimeDirection = OrderDirection.Asc →
      st.organization = PostOrdering.AscendingContinuous →
      opts.postsAfterId = none → opts.postsAfterTime = none →
      st.postIdBeforeFirst = none → last = st.endTime →
      reduceChannelDownloadConstraints g opts st last =
        Except.ok ReduceResult.nothingToDo)
    ∧ (opts.downloadTimeDirection = OrderDirection.Desc →
      st.organization = PostOrdering.DescendingContinuous →
      opts.postsBeforeId = none → opts.postsBeforeTime = none →
      opts.postsAfterId = none → opts.postsAfterTime = none →
      st.postIdBeforeFirst = none → last = st.beginTime → 0 < st.endTime →
      reduceChannelDownloadConstraints g opts st last =
        Except.ok ReduceResult.nothingToDo) := by
  cases opts with
  | mk aid bid btv atv pl psl oca oia dir =>
    constructor
    · intro hdir horg haid hat hbf hlast
      dsimp only at hdir haid hat
      subst hdir haid hat hlast
      simp [reduceChannelDownloadConstraints, reduceAscStart, horg, hbf]
    · intro hdir horg hbid hbt haid hat hbf hlast hpos
      dsimp only at hdir hbid hbt haid hat
      subst hdir hbid hbt haid hat hlast
      have h1 : ¬ st.endTime ≤ (0 : Int) := by linarith
      by_cases hpl : pl = -1
      · subst hpl
        simp [reduceChannelDownloadConstraints, reduceDescStart, reduceDescTail,
          continueStorage, getEndTime, isKnownBoundaryId, horg, hbf, h1, hpos]
      · by_cases hplc : pl ≤ st.count
        · simp [reduceChannelDownloadConstraints, reduceDescStart, continueStorage,
            boolToReduceResult, horg, hbf, hpl, hplc]
        · simp [reduceChannelDownloadConstraints, reduceDescStart, reduceDescTail,
            continueStorage, getEndTime, isKnownBoundaryId, boolToReduceResult,
            horg, hbf, h1, hpos, hpl, hplc]

/-- Claim C4 witness: the no-edit second-run theorem at concrete ascending
and descending archives. -/
theorem second_run_planner_nothing_to_do_witness :
    reduceChannelDownloadConstraints (fun _ => 0) {}
      { count := 2, organization := PostOrdering.AscendingContinuous,
        byteSize := 41, beginTime := 10, firstPostId := "a1",
        endTime := 300, lastPostId := "a2" } 300 =
      Except.ok ReduceResult.nothingToDo
    ∧ reduceChannelDownloadConstraints (fun _ => 0)
      { downloadTimeDirection := OrderDirection.Desc }
      { count := 3, organization := PostOrdering.DescendingContinuous,
        byteSize := 66, beginTime := 500, firstPostId := "q3",
        endTime := 150, lastPostId := "q1" } 500 =
      Except.ok ReduceResult.nothingToDo :=
  ⟨(second_run_planner_nothing_to_do (fun _ => 0) {}
      { count := 2, organization := PostOrdering.AscendingContinuous,
        byteSize := 41, beginTime := 10, firstPostId := "a1",
        endTime := 300, lastPostId := "a2" } 300).1 rfl rfl rfl rfl rfl rfl,
   (second_run_planner_nothing_to_do (fun _ => 0)
      { downloadTimeDirection := OrderDirection.Desc }
      { count := 3, organization := PostOrdering.DescendingContinuous,
        byteSize := 66, beginTime := 500, firstPostId := "q3",
        endTime := 150, lastPostId := "q1" } 500).2
      rfl rfl rfl rfl rfl rfl rfl rfl (by decide)⟩

/-- Claim C10 (confirmed, spec-modelled schema): under the header schema's
non-negative post count, a storage loaded by ChannelHeader.fromStore is
discarded when its count is zero, every storage surviving a load has a
positive count, and a header serializes a storage object only when its
count is positive; hence header storage is never observably empty. -/
theorem channelHeader_storage_positive (sf : Option PostStorage) (h : ChannelHeader)
    (hschema : ∀ s, sf = some s → headerStorageSchemaOk s) :
    (∀ s : PostStorage, s.count = 0 →
      (ChannelHeader.fromStore (some s)).storage = none)
    ∧ (∀ s, (ChannelHeader.fromStore sf).storage = some s → 0 < s.count)
    ∧ (∀ s, h.toStore = some s → 0 < s.count) := by
  refine ⟨?_, ?_, ?_⟩
  · intro s hs
    simp [ChannelHeader.fromStore, hs]
  · intro s hs
    cases hsf : sf with
    | none =>
      rw [hsf] at hs
      simp [ChannelHeader.fromStore] at hs
    | some s0 =>
      have hsch := hschema s0 hsf
      rw [hsf] at hs
      simp only [ChannelHeader.fromStore] at hs
      by_cases h0 : s0.count = 0
      · simp [h0] at hs
      · simp [h0] at hs
        subst hs
        unfold headerStorageSchemaOk at hsch
        omega
  · intro s hs
    cases hst : h.storage with
    | none => simp [ChannelHeader.toStore, hst] at hs
    | some s0 =>
      simp only [ChannelHeader.toStore, hst] at hs
      by_cases h0 : 0 < s0.count
      · simp [h0] at hs
        subst hs
        exact h0
      · simp [h0] at hs

/-- Claim C10 witness: the header-storage theorem instantiated at concrete
storages of counts 0, 2 and 3. -/
theorem channelHeader_storage_positive_witness :
    (ChannelHeader.fromStore (some ({ count := 0 } : PostStorage))).storage = none
    ∧ (0 : Int) < ({ count := 2 } : PostStorage).count
    ∧ (0 : Int) < ({ count := 3 } : PostStorage).count :=
  ⟨(channelHeader_storage_positive (some { count := 2 })
      { storage := some { count := 3 } }
      (fun s hs => by cases hs; decide)).1 { count := 0 } rfl,
   (channelHeader_storage_positive (some { count := 2 })
      { storage := some { count := 3 } }
      (fun s hs => by cases hs; decide)).2.1 { count := 2 } (by decide),
   (channelHeader_storage_positive (some { count := 2 })
      { storage := some { count := 3 } }
      (fun s hs => by cases hs; decide)).2.2 { count := 3 } (by decide)⟩

end MattermostDl
